import Mathlib

/-!
Verification development for the Regulatory-Compliance-Checker repository.

Shallow embedding of the orchestration core of the application:
* `auth_manager.py` — the session / authentication state machine,
* `email_notifier.py` — the notification gate and report composition,
* `app.py` — result aggregation (dashboard, summary insights) and the
  orchestration of analysis runs around the notification gate.

Modelling conventions:
* Streamlit's `st.session_state` is made explicit as record types
  (`SessionState` for the auth keys, `AppState` for the run keys).
* `datetime.now()` is threaded through as an explicit parameter
  (`now : Nat` for login timestamps, `dateStr : String` for the already
  formatted date embedded in reports).
* Environment variables read by `os.getenv` are explicit `String`
  parameters; the absent variable is modelled as `""` (both `None` and
  `""` are falsy where the code tests them).
* The SMTP transport (`yagmail`) is modelled by recording the calls the
  code makes to `yag.send` in a `List SendCall`, together with a boolean
  `transportOk` saying whether the transport would throw.
* Python exceptions raised by the transport are modelled by the
  `transportOk` flag; the `try/except` in the code becomes the branch on
  that flag.
-/

/-- A single character predicate for ASCII whitespace; models the default
character class of Python's `str.strip` on the inputs used here. -/
def isPySpace (c : Char) : Bool :=
  c = ' ' ∨ c = '\t' ∨ c = '\n' ∨ c = '\r'

/-- Models Python `str.strip()`: remove leading and trailing whitespace. -/
def pyStrip (s : String) : String :=
  String.mk (((s.data.dropWhile isPySpace).reverse.dropWhile isPySpace).reverse)

/-- Models Python `str.replace('%', '')`: remove every occurrence of the
one-character substring `%`. -/
def removePercent (s : String) : String :=
  String.mk (s.data.filter (fun c => c ≠ '%'))

/-- Models Python `s.split(",")` (split on every comma, keeping empty
parts, so `","` splits to two empty strings). -/
def pySplitComma (s : String) : List String :=
  (s.data.foldr
    (fun c acc =>
      match acc with
      | [] => [[c]]
      | a :: rest => if c = ',' then [] :: a :: rest else (c :: a) :: rest)
    [[]]).map String.mk

/-- Numeric value of a list of decimal digit characters. -/
def natOfDigits (cs : List Char) : Nat :=
  cs.foldl (fun a c => a * 10 + (c.toNat - 48)) 0

/-- Models Python `float(s)` on the domain relevant to risk-percent
strings: optional surrounding whitespace (which `float` itself strips),
an optional sign, and a plain decimal numeral with an optional single
decimal point.  Exponent notation and the special values `inf`/`nan`
are outside the modelled domain; the result is the exact rational value
(the analyses below depend only on which strings parse, and on exact
small values, never on binary rounding). -/
def pyFloat? (s : String) : Option ℚ :=
  let cs := (pyStrip s).data
  let signBody : ℚ × List Char :=
    match cs with
    | '-' :: r => (-1, r)
    | '+' :: r => (1, r)
    | _ => (1, cs)
  let sign := signBody.1
  let body := signBody.2
  let ip := body.takeWhile Char.isDigit
  let rest := body.dropWhile Char.isDigit
  match rest with
  | [] => if ip = [] then none else some (sign * (natOfDigits ip : ℚ))
  | '.' :: fp =>
      if fp.all Char.isDigit ∧ (ip ≠ [] ∨ fp ≠ []) then
        some (sign * ((natOfDigits ip : ℚ) + (natOfDigits fp : ℚ) / (10 : ℚ) ^ fp.length))
      else none
  | _ => none

/-- One clause record as produced by the external analyzer
(`analyze_contract_file`); the code accesses these dict keys.
`risk_level` is kept as a `String` because the code compares it with
string literals `"High"`, `"Medium"`, `"Low"`. -/
structure ClauseRecord where
  clause_id : String
  clause : String
  risk_level : String
  risk_percent : String
  regulation : String
  summary : String
  key_clauses : String
  ai_modified_clause : String
  ai_modified_risk_level : String
  deriving DecidableEq, Repr

/-! ## auth_manager.py -/

/-- One entry of the `VALID_USERS` credential table. -/
structure UserRec where
  password : String
  name : String
  role : String
  deriving DecidableEq, Repr

/-- The two built-in entries of `VALID_USERS`. -/
def base_valid_users : List (String × UserRec) :=
  [("admin@company.com", ⟨"admin123", "Admin User", "Administrator"⟩),
   ("user@company.com", ⟨"user123", "Regular User", "Analyst"⟩)]

/-- Table `VALID_USERS` after the optional environment-provided entry
(`AUTH_USER`/`AUTH_PASSWORD`/`AUTH_NAME`) is merged in; dict assignment
overwrites an existing key, modelled by filtering the key out first. -/
def valid_users (env_entry : Option (String × String × String)) :
    List (String × UserRec) :=
  match env_entry with
  | none => base_valid_users
  | some (u, p, n) =>
      (base_valid_users.filter (fun kv => kv.1 ≠ u)) ++ [(u, ⟨p, n, "User"⟩)]

/-- The auth keys of `st.session_state`, made explicit. -/
structure SessionState where
  authenticated : Bool
  temp_session : Bool
  user_email : Option String
  user_name : Option String
  user_role : Option String
  login_time : Option Nat
  deriving DecidableEq, Repr

/-- Embedding of `initialize_auth_session`: every key is given its default when absent;
at context start no key is present, so the result is this state. -/
def init_auth_session : SessionState :=
  ⟨false, false, none, none, none, none⟩

/-- The three session kinds of the spec's data model, derived from the two
boolean session flags the code stores. -/
inductive SessionKind where
  | Unauthenticated
  | Temporary
  | Full
  deriving DecidableEq, Repr

/-- Derived session kind: `Unauthenticated` when the `authenticated` flag
is off, else `Temporary`/`Full` according to `temp_session`. -/
def session_kind (s : SessionState) : SessionKind :=
  if ¬ s.authenticated then .Unauthenticated
  else if s.temp_session then .Temporary
  else .Full

/-- Embedding of `authenticate_user(email, password)`: table lookup, then password
comparison; on success all session fields are set, otherwise the state is
untouched.  Returns the `(success, message)` pair together with the new
state. -/
def authenticate_user (table : List (String × UserRec))
    (email password : String) (now : Nat) (s : SessionState) :
    (Bool × String) × SessionState :=
  match table.lookup email with
  | some rec =>
      if rec.password = password then
        ((true, "Login successful!"),
         { authenticated := true, temp_session := false,
           user_email := some email, user_name := some rec.name,
           user_role := some rec.role, login_time := some now })
      else ((false, "Invalid email or password"), s)
  | none => ((false, "Invalid email or password"), s)

/-- Embedding of `create_temp_session(email)`: unconditionally installs a temporary
guest session (the function itself performs no validation and returns
`True`, modelled by returning just the new state). -/
def create_temp_session (email : String) (now : Nat) (_s : SessionState) :
    SessionState :=
  { authenticated := true, temp_session := true,
    user_email := some email,
    user_name := some ("Guest (" ++ email ++ ")"),
    user_role := some "Guest", login_time := some now }

/-- Embedding of `logout_user()`: reset every auth key. -/
def logout_user (_s : SessionState) : SessionState :=
  ⟨false, false, none, none, none, none⟩

/-- Models the Python substring test `"@" in email` (a one-character
needle, so membership of the character). -/
def has_at_sign (email : String) : Bool :=
  email.data.contains '@'

/-- The temporary-session form handler inside `show_login_form`:
`if not temp_email or "@" not in temp_email` show an error and leave the
state unchanged, else call `create_temp_session`.  The returned boolean
is `true` on success, `false` on the validation error. -/
def temp_session_submit (email : String) (now : Nat) (s : SessionState) :
    Bool × SessionState :=
  if email = "" ∨ ¬ has_at_sign email then (false, s)
  else (true, create_temp_session email now s)

/-- One session operation, for stating the invariant over operation
sequences. -/
inductive AuthOp where
  | login (email password : String) (now : Nat)
  | temp (email : String) (now : Nat)
  | logout
  deriving DecidableEq, Repr

/-- Interpretation of one session operation on the session state, with an
arbitrary credential table (covering the optional environment entry). -/
def auth_step (table : List (String × UserRec)) (s : SessionState) :
    AuthOp → SessionState
  | .login e p now => (authenticate_user table e p now s).2
  | .temp e now => create_temp_session e now s
  | .logout => logout_user s

/-- Run a sequence of session operations from the initialized state. -/
def auth_run (table : List (String × UserRec)) (ops : List AuthOp) :
    SessionState :=
  ops.foldl (auth_step table) init_auth_session

/-- The identity fields (email, name, role) are all null. -/
def identity_null (s : SessionState) : Prop :=
  s.user_email = none ∧ s.user_name = none ∧ s.user_role = none

/-- The session invariant of the spec's data model. -/
def session_invariant (s : SessionState) : Prop :=
  session_kind s = .Unauthenticated ↔ identity_null s

theorem auth_step_preserves_invariant (table : List (String × UserRec))
    (s : SessionState) (op : AuthOp) (h : session_invariant s) :
    session_invariant (auth_step table s op) := by
  cases op with
  | login e p now =>
      simp only [auth_step, authenticate_user]
      cases table.lookup e with
      | none => exact h
      | some rec =>
          by_cases hp : rec.password = p
          · simp only [hp, if_pos rfl]
            constructor <;> intro hx <;>
              simp [session_kind, identity_null] at hx ⊢
          · simpa [hp] using h
  | temp e now =>
      constructor <;> intro hx <;>
        simp [auth_step, create_temp_session, session_kind, identity_null] at hx ⊢
  | logout =>
      constructor <;> intro hx <;>
        simp [auth_step, logout_user, session_kind, identity_null] at hx ⊢

theorem auth_run_invariant_aux (table : List (String × UserRec))
    (ops : List AuthOp) (s : SessionState) (h : session_invariant s) :
    session_invariant (ops.foldl (auth_step table) s) := by
  induction ops generalizing s with
  | nil => exact h
  | cons op rest ih =>
      exact ih _ (auth_step_preserves_invariant table s op h)

/-! ## email_notifier.py -/

/-- The fields of the `EmailNotifier` instance that the notification
logic reads (`notification_emails`, `enabled`).  The live `yagmail.SMTP`
handle is modelled by the per-call `transportOk` flag instead. -/
structure NotifierState where
  notification_emails : List String
  enabled : Bool
  deriving DecidableEq, Repr

/-- Embedding of `_get_notification_emails`: read `NOTIFICATION_EMAILS`; when the
string is non-empty, split on commas, strip each entry and drop blanks;
otherwise the fixed fallback list. -/
def get_notification_emails (env : String) : List String :=
  if env ≠ "" then
    ((pySplitComma env).map pyStrip).filter (fun e => e ≠ "")
  else
    ["admin@company.com", "compliance@company.com", "legal@company.com"]

/-- Embedding of `EmailNotifier.__init__`: recipients resolved from the environment;
`enabled` is false when either credential is absent/empty, and otherwise
reflects whether the `yagmail.SMTP` constructor succeeded (`smtp_ok`). -/
def email_notifier_init (email_user email_password notif_env : String)
    (smtp_ok : Bool) : NotifierState :=
  { notification_emails := get_notification_emails notif_env,
    enabled := if email_user = "" ∨ email_password = "" then false else smtp_ok }

/-- Embedding of `_check_user_session`: authenticated and not a temporary session. -/
def check_user_session (s : SessionState) : Bool :=
  s.authenticated && !s.temp_session

/-- Embedding of `_get_user_info`: user name and email with their fallback defaults. -/
def get_user_info (s : SessionState) : String × String :=
  (s.user_name.getD "Unknown User", s.user_email.getD "unknown@email.com")

/-- Models Python's `f"{x:.0f}"` on the exact rational value: round to
the nearest integer, ties to even. -/
def fmt_f0 (q : ℚ) : String :=
  let n : ℤ := ⌊q⌋
  let frac : ℚ := q - (n : ℚ)
  toString (if frac < 1/2 then n
            else if (1/2 : ℚ) < frac then n + 1
            else if n % 2 = 0 then n else n + 1)

/-- Models Python's `str()` of the compliance-rate value inside the
f-string.  The CPython float repr is abstracted as a deterministic
rendering of the exact rational; every property proved below depends
only on this function being deterministic in its argument. -/
def rat_repr (q : ℚ) : String :=
  toString q

/-- Embedding of `generate_analysis_summary(analysis_results, contract_name)`:
`None` on an empty result list, `None` when the session check fails,
otherwise the compact HTML email body.  The statistics mirror the
pandas counts; `medium_risk > total_clauses * 0.5` is an exact float
comparison for list lengths, modelled as `2 * medium_risk >
total_clauses`.  `dateStr` is the shallow embedding of
`datetime.now().strftime('%b %d, %Y')`. -/
def generate_analysis_summary (results : List ClauseRecord)
    (contract_name : String) (s : SessionState) (dateStr : String) :
    Option String :=
  if results = [] then none
  else if ¬ check_user_session s then none
  else
    let userName := (get_user_info s).1
    let total_clauses := results.length
    let high_risk := (results.filter (fun r => r.risk_level = "High")).length
    let medium_risk := (results.filter (fun r => r.risk_level = "Medium")).length
    let low_risk := (results.filter (fun r => r.risk_level = "Low")).length
    let compliance_rate : ℚ :=
      if total_clauses > 0 then (low_risk : ℚ) / (total_clauses : ℚ) * 100 else 0
    let status : String × String × String :=
      if high_risk > 0 then ("#ef4444", "🚨", "HIGH RISK")
      else if 2 * medium_risk > total_clauses then ("#f59e0b", "⚠️", "MODERATE")
      else ("#10b981", "✅", "LOW RISK")
    let statusColor := status.1
    let statusIcon := status.2.1
    let statusText := status.2.2
    let totalStr := toString total_clauses
    let highStr := toString high_risk
    let medStr := toString medium_risk
    let lowStr := toString low_risk
    let rateStr := fmt_f0 compliance_rate
    let rateRaw := rat_repr compliance_rate
    some s!"
        <!DOCTYPE html>
        <html>
        <head>
            <meta charset=\"UTF-8\">
            <meta name=\"viewport\" content=\"width=device-width, initial-scale=1.0\">
        </head>
        <body style=\"margin:0;padding:15px;font-family:-apple-system,BlinkMacSystemFont,\x27Segoe UI\x27,Roboto,Arial,sans-serif;background:#f3f4f6;\">
            <table width=\"100%\" style=\"max-width:480px;margin:0 auto;background:#fff;border-radius:10px;overflow:hidden;box-shadow:0 2px 8px rgba(0,0,0,0.1);\">
                <!-- Header -->
                <tr>
                    <td style=\"background:linear-gradient(135deg,#667eea 0%,#764ba2 100%);padding:18px 15px;text-align:center;\">
                        <div style=\"font-size:28px;margin-bottom:5px;\">⚖️</div>
                        <h1 style=\"margin:0;color:#fff;font-size:18px;font-weight:700;letter-spacing:-0.3px;\">Contract Analysis</h1>
                    </td>
                </tr>
                <!-- Status -->
                <tr>
                    <td style=\"padding:12px 15px;background:{statusColor};text-align:center;\">
                        <h2 style=\"margin:0;color:#fff;font-size:16px;font-weight:700;letter-spacing:0.5px;\">{statusIcon} {statusText}</h2>
                    </td>
                </tr>
                <!-- Content -->
                <tr>
                    <td style=\"padding:15px;\">
                        <!-- Info -->
                        <div style=\"background:#f9fafb;border-radius:6px 6px 0 0;padding:10px;margin:0;\">
                            <table width=\"100%\" cellpadding=\"3\" cellspacing=\"0\">
                                <tr>
                                    <td style=\"color:#6b7280;font-size:12px;width:35%;\">Contract:</td>
                                    <td style=\"color:#111827;font-size:12px;font-weight:600;\">{contract_name}</td>
                                </tr>
                                <tr>
                                    <td style=\"color:#6b7280;font-size:12px;\">By:</td>
                                    <td style=\"color:#111827;font-size:12px;font-weight:600;\">{userName}</td>
                                </tr>
                                <tr>
                                    <td style=\"color:#6b7280;font-size:12px;\">Date:</td>
                                    <td style=\"color:#111827;font-size:12px;font-weight:600;\">{dateStr}</td>
                                </tr>
                            </table>
                        </div>
                        <!-- Metrics -->
                        <table width=\"100%\" cellpadding=\"0\" cellspacing=\"0\" style=\"margin:0;\">
                            <tr>
                                <td width=\"25%\" style=\"text-align:center;padding:10px 0;background:#3b82f6;\">
                                    <div style=\"color:rgba(255,255,255,0.85);font-size:9px;font-weight:700;text-transform:uppercase;letter-spacing:0.5px;margin-bottom:2px;\">Total</div>
                                    <div style=\"color:#fff;font-size:22px;font-weight:700;line-height:1;\">{totalStr}</div>
                                </td>
                                <td width=\"25%\" style=\"text-align:center;padding:10px 0;background:#ef4444;\">
                                    <div style=\"color:rgba(255,255,255,0.85);font-size:9px;font-weight:700;text-transform:uppercase;letter-spacing:0.5px;margin-bottom:2px;\">High</div>
                                    <div style=\"color:#fff;font-size:22px;font-weight:700;line-height:1;\">{highStr}</div>
                                </td>
                                <td width=\"25%\" style=\"text-align:center;padding:10px 0;background:#f59e0b;\">
                                    <div style=\"color:rgba(255,255,255,0.85);font-size:9px;font-weight:700;text-transform:uppercase;letter-spacing:0.5px;margin-bottom:2px;\">Med</div>
                                    <div style=\"color:#fff;font-size:22px;font-weight:700;line-height:1;\">{medStr}</div>
                                </td>
                                <td width=\"25%\" style=\"text-align:center;padding:10px 0;background:#10b981;\">
                                    <div style=\"color:rgba(255,255,255,0.85);font-size:9px;font-weight:700;text-transform:uppercase;letter-spacing:0.5px;margin-bottom:2px;\">Low</div>
                                    <div style=\"color:#fff;font-size:22px;font-weight:700;line-height:1;\">{lowStr}</div>
                                </td>
                            </tr>
                        </table>
                        <!-- Compliance Bar -->
                        <div style=\"background:#f9fafb;padding:10px;margin:0;\">
                            <div style=\"margin-bottom:6px;\">
                                <table width=\"100%\" cellpadding=\"0\" cellspacing=\"0\">
                                    <tr>
                                        <td style=\"color:#6b7280;font-size:11px;font-weight:600;\">Compliance Rate</td>
                                        <td style=\"color:#111827;font-size:13px;font-weight:700;text-align:right;\">{rateStr}%</td>
                                    </tr>
                                </table>
                            </div>
                            <div style=\"background:#e5e7eb;height:7px;border-radius:10px;overflow:hidden;\">
                                <div style=\"background:linear-gradient(90deg,#10b981,#059669);height:100%;width:{rateRaw}%;border-radius:10px;\"></div>
                            </div>
                        </div>
                        <!-- Note -->
                        <div style=\"background:#f9fafb;border-radius:0 0 6px 6px;padding:8px;text-align:center;margin:0;\">
                            <p style=\"margin:0;color:#6b7280;font-size:11px;line-height:1.4;\">
                                📊 View full analysis in your dashboard
                            </p>
                        </div>
                    </td>
                </tr>
                <!-- Footer -->
                <tr>
                    <td style=\"background:#f9fafb;padding:10px;text-align:center;border-top:1px solid #e5e7eb;\">
                        <p style=\"margin:0;color:#9ca3af;font-size:10px;line-height:1.3;\">AI Compliance Dashboard<br>{dateStr}</p>
                    </td>
                </tr>
            </table>
        </body>
        </html>
        "

/-- One call the code makes to `yag.send`; `recipients` models the `to=`
argument. -/
structure SendCall where
  recipients : List String
  subject : String
  contents : String
  deriving DecidableEq, Repr

/-- Embedding of `send_analysis_notification(analysis_results, contract_name)`:
returns the boolean result of the Python function together with the
list of transport calls it performed (`yag.send` is called exactly when
a `SendCall` is recorded; when `transportOk` is false the call throws,
the `except` branch catches it and the function returns `False`). -/
def send_analysis_notification (n : NotifierState) (s : SessionState)
    (results : List ClauseRecord) (contract_name dateStr : String)
    (transportOk : Bool) : Bool × List SendCall :=
  if ¬ n.enabled then (false, [])
  else if ¬ check_user_session s then (false, [])
  else
    match generate_analysis_summary results contract_name s dateStr with
    | none => (false, [])
    | some html =>
        let high_risk := (results.filter (fun r => r.risk_level = "High")).length
        let medium_risk := (results.filter (fun r => r.risk_level = "Medium")).length
        let subject :=
          if high_risk > 0 then "🚨 HIGH RISK: " ++ contract_name
          else if medium_risk > 0 then "⚠️ Review: " ++ contract_name
          else "✅ Complete: " ++ contract_name
        let call : SendCall := ⟨n.notification_emails, subject, html⟩
        if transportOk then (true, [call]) else (false, [call])

/-! ## app.py — aggregation -/

/-- The parse of one record's `risk_percent` inside `create_dashboard`:
`r['risk_percent'].replace('%', '').strip()` fed to `float(...)`; the
`try/except` around it turns a parse failure into a skip (`none`). -/
def parse_risk_percent (rp : String) : Option ℚ :=
  pyFloat? (pyStrip (removePercent rp))

/-- The average-risk statistic of `create_dashboard`: mean of the
successfully parsed `risk_percent` values, `0` when none parse. -/
def dashboard_avg_risk (results : List ClauseRecord) : ℚ :=
  let risk_percentages := results.filterMap (fun r => parse_risk_percent r.risk_percent)
  if risk_percentages = [] then 0
  else risk_percentages.sum / (risk_percentages.length : ℚ)

/-- The three-way verdict shown by `create_summary_insights`. -/
inductive Recommendation where
  | Reject
  | ReviewRecommended
  | Acceptable
  deriving DecidableEq, Repr

/-- The recommendation block of `create_summary_insights` (app.py
lines 293–302): `Reject` when there is any High-risk item, else
`ReviewRecommended` when Medium items outnumber half the total, else
`Acceptable`.  `len(medium) > total_count * 0.5` is an exact float
comparison for list lengths, modelled as `2 * len(medium) > total`. -/
def create_summary_recommendation (results : List ClauseRecord) :
    Recommendation :=
  let high_risk_items := results.filter (fun r => r.risk_level = "High")
  let medium_risk_items := results.filter (fun r => r.risk_level = "Medium")
  let total_count := results.length
  if high_risk_items ≠ [] then .Reject
  else if 2 * medium_risk_items.length > total_count then .ReviewRecommended
  else .Acceptable

/-! ## app.py — orchestration of an analysis run -/

/-- The run-related keys of `st.session_state` set by
`initialize_session_state` and mutated by `main`/`analyze_contract`. -/
structure AppState where
  analysis_complete : Bool
  analysis_results : Option (List ClauseRecord)
  contract_name : String
  email_sent : Bool
  deriving DecidableEq, Repr

/-- Embedding of `initialize_session_state` for the run keys. -/
def init_app_state : AppState :=
  ⟨false, none, "", false⟩

/-- Embedding of `analyze_contract(uploaded_file)` after the external analyzer has
produced `res` (an empty list models the falsy `None`/`[]` failure
result): when results exist, the notification gate is called and
`email_sent` is set only when that call returned `True`; otherwise the
run fails with no side effects.  Returns the function's return value,
the updated `email_sent` flag, and the transport calls performed. -/
def analyze_contract (n : NotifierState) (s : SessionState)
    (res : List ClauseRecord) (contract_name dateStr : String)
    (transportOk : Bool) (email_sent : Bool) :
    Option (List ClauseRecord) × Bool × List SendCall :=
  if res ≠ [] then
    let sent := send_analysis_notification n s res contract_name dateStr transportOk
    (some res, if sent.1 then true else email_sent, sent.2)
  else (none, email_sent, [])

/-- One user-visible event of the re-render-driven main loop. -/
inductive Event where
  | submit (res : List ClauseRecord) (contract_name dateStr : String)
      (transportOk : Bool)
  | rerender
  | analyze_another
  deriving DecidableEq, Repr

/-- One step of `main`'s handling of an event, for a fixed notifier and
auth session.  A `submit` is only reachable while
`analysis_complete` is false (the upload form is rendered only in that
branch); on analyzer success the run is marked complete and the results
stored.  A plain re-render of a completed run performs no side effect.
`analyze_another` is the explicit reset button, rendered only for a
completed run with stored results. -/
def app_step (n : NotifierState) (s : SessionState) (st : AppState) :
    Event → AppState × List SendCall
  | .submit res contract_name dateStr transportOk =>
      if st.analysis_complete then (st, [])
      else
        let out := analyze_contract n s res contract_name dateStr transportOk st.email_sent
        match out.1 with
        | some rs =>
            ({ st with analysis_results := some rs, analysis_complete := true,
                       contract_name := contract_name, email_sent := out.2.1 },
             out.2.2)
        | none => ({ st with email_sent := out.2.1 }, out.2.2)
  | .rerender => (st, [])
  | .analyze_another =>
      if st.analysis_complete ∧ st.analysis_results ≠ none then
        (⟨false, none, "", false⟩, [])
      else (st, [])

/-- Total number of transport calls performed along a trace of events. -/
def trace_sends (n : NotifierState) (s : SessionState) :
    AppState → List Event → Nat
  | _, [] => 0
  | st, e :: es =>
      (app_step n s st e).2.length + trace_sends n s (app_step n s st e).1 es

/-! ## Spec-side definitions for refinement comparison -/

/-- Drop one trailing `%` character if present. -/
def stripTrailingPercent (cs : List Char) : List Char :=
  match cs.reverse with
  | '%' :: rest => rest.reverse
  | _ => cs

/-- The risk-percent parse as the spec's words describe it: strip the
surrounding whitespace and a single trailing `%`, then convert.  Written
from the spec sentence, for comparison with `parse_risk_percent`. -/
def spec_parse_risk_percent (rp : String) : Option ℚ :=
  pyFloat? (String.mk (stripTrailingPercent (pyStrip rp).data))

/-- The average-risk statistic as the spec's words describe it, using the
trailing-percent parse. -/
def spec_avg_risk (results : List ClauseRecord) : ℚ :=
  let ps := results.filterMap (fun r => spec_parse_risk_percent r.risk_percent)
  if ps = [] then 0
  else ps.sum / (ps.length : ℚ)

/-! ## Concrete sample values used by witnesses and counterexamples -/

/-- A Low-risk sample record. -/
def recLow : ClauseRecord :=
  ⟨"c1", "clause text", "Low", "10%", "GDPR", "ok", "data", "same", "Low"⟩

/-- A High-risk sample record. -/
def recHigh : ClauseRecord :=
  ⟨"c2", "clause text", "High", "90%", "HIPAA", "bad", "liability", "fixed", "Low"⟩

/-- A Medium-risk sample record. -/
def recMedium : ClauseRecord :=
  ⟨"c3", "clause text", "Medium", "55%", "", "meh", "", "better", "Low"⟩

/-- A record whose `risk_percent` is `"42%"`. -/
def rec42 : ClauseRecord :=
  ⟨"c4", "t", "Low", "42%", "", "", "", "", "Low"⟩

/-- A record whose `risk_percent` is `" 7 % "`. -/
def rec7sp : ClauseRecord :=
  ⟨"c5", "t", "Low", " 7 % ", "", "", "", "", "Low"⟩

/-- A record whose `risk_percent` is `"abc"`. -/
def recAbc : ClauseRecord :=
  ⟨"c6", "t", "Low", "abc", "", "", "", "", "Low"⟩

/-- A record whose `risk_percent` has a non-trailing `%`. -/
def recOddPercent : ClauseRecord :=
  ⟨"c7", "t", "Low", "4%2", "", "", "", "", "Low"⟩

/-- A notifier with configured credentials, a working SMTP handle and no
recipient override: `enabled = true`, fallback recipients. -/
def nFull : NotifierState :=
  email_notifier_init "sender@company.com" "secret" "" true

/-- A fully authenticated session (the built-in admin user, logged in at
time 0). -/
def sFull : SessionState :=
  (authenticate_user base_valid_users "admin@company.com" "admin123" 0
    init_auth_session).2

/-- A temporary guest session. -/
def sTemp : SessionState :=
  create_temp_session "guest@example.com" 0 init_auth_session

/-! ## Helper lemmas -/

/-- A single call of the notification gate performs at most one transport
call. -/
theorem send_calls_le_one (n : NotifierState) (s : SessionState)
    (results : List ClauseRecord) (contract_name dateStr : String)
    (transportOk : Bool) :
    (send_analysis_notification n s results contract_name dateStr
      transportOk).2.length ≤ 1 := by
  unfold send_analysis_notification
  split
  · simp
  · split
    · simp
    · split
      · simp
      · split <;> simp

/-- A completed run performs no further transport calls as long as it is
not reset: submits are unreachable and re-renders are side-effect free. -/
theorem trace_sends_of_complete (n : NotifierState) (s : SessionState)
    (evs : List Event) (st : AppState) (hst : st.analysis_complete = true)
    (hnr : ∀ e ∈ evs, e ≠ Event.analyze_another) :
    trace_sends n s st evs = 0 := by
  induction evs generalizing st with
  | nil => rfl
  | cons e es ih =>
      cases e with
      | submit res c d t =>
          simp only [trace_sends, app_step, hst, if_true, List.length_nil,
            Nat.zero_add]
          exact ih st hst (fun e he => hnr e (List.mem_cons_of_mem _ he))
      | rerender =>
          simp only [trace_sends, app_step, List.length_nil, Nat.zero_add]
          exact ih st hst (fun e he => hnr e (List.mem_cons_of_mem _ he))
      | analyze_another =>
          exact absurd rfl (hnr _ (List.mem_cons_self _ _))

/-! ## Claim theorems -/

/-- C2: for every session whose kind is not `Full` (so `Unauthenticated`
or `Temporary`) and for every run contents, `send_analysis_notification`
returns `false` and the email transport is never invoked. -/
theorem C2_non_full_session_blocked (n : NotifierState) (s : SessionState)
    (results : List ClauseRecord) (contract_name dateStr : String)
    (transportOk : Bool) (h : session_kind s ≠ SessionKind.Full) :
    send_analysis_notification n s results contract_name dateStr transportOk
      = (false, []) := by
  have hc : check_user_session s = false := by
    cases hauth : s.authenticated <;> cases htemp : s.temp_session <;>
      simp_all [session_kind, check_user_session]
  by_cases he : n.enabled <;>
    simp [send_analysis_notification, hc, he]

/-- Witness for C2 at a concrete temporary session. -/
theorem C2_non_full_session_blocked_witness :
    session_kind sTemp ≠ SessionKind.Full ∧
    send_analysis_notification nFull sTemp [recLow] "contract.pdf"
      "Oct 12, 2025" true = (false, []) :=
  ⟨by decide,
   C2_non_full_session_blocked nFull sTemp [recLow] "contract.pdf"
     "Oct 12, 2025" true (by decide)⟩

/-- C3: every sequence of session operations (initialize, login,
start-temporary-session, logout), over any credential table, preserves
the invariant that the session kind is `Unauthenticated` if and only if
the identity fields (email, name, role) are all null. -/
theorem C3_session_invariant_preserved (table : List (String × UserRec))
    (ops : List AuthOp) : session_invariant (auth_run table ops) :=
  auth_run_invariant_aux table ops init_auth_session (by
    constructor <;> intro hx <;>
      simp [session_kind, init_auth_session, identity_null])

/-- C10: with an empty analysis-results list the notification operation
returns `false` and never invokes the transport, for every session state
(including an eligible `Full` session with the transport enabled),
because report generation yields `None` for an empty run. -/
theorem C10_empty_results_no_send (n : NotifierState) (s : SessionState)
    (contract_name dateStr : String) (transportOk : Bool) :
    send_analysis_notification n s [] contract_name dateStr transportOk
      = (false, []) := by
  unfold send_analysis_notification
  split
  · rfl
  · split
    · rfl
    · simp [generate_analysis_summary]

/-- C4: the recommendation of `create_summary_insights` follows the
stated precedence — any High-risk record forces `Reject` regardless of
the Medium proportion; with no High record, a Medium count exceeding
half the total gives `ReviewRecommended`, else `Acceptable`; the empty
record set is `Acceptable`. -/
theorem C4_recommendation_precedence (results : List ClauseRecord) :
    (0 < results.countP (fun r => r.risk_level = "High") →
      create_summary_recommendation results = Recommendation.Reject) ∧
    (results.countP (fun r => r.risk_level = "High") = 0 →
      2 * results.countP (fun r => r.risk_level = "Medium") > results.length →
      create_summary_recommendation results = Recommendation.ReviewRecommended) ∧
    (results.countP (fun r => r.risk_level = "High") = 0 →
      2 * results.countP (fun r => r.risk_level = "Medium") ≤ results.length →
      create_summary_recommendation results = Recommendation.Acceptable) ∧
    create_summary_recommendation [] = Recommendation.Acceptable := by
  refine ⟨?_, ?_, ?_, rfl⟩
  · intro h
    have hne : results.filter (fun r => r.risk_level = "High") ≠ [] := by
      rw [← List.length_pos, ← List.countP_eq_length_filter]
      exact h
    simp [create_summary_recommendation, hne]
  · intro h0 hm
    have hnil : results.filter (fun r => r.risk_level = "High") = [] := by
      rw [← List.length_eq_zero, ← List.countP_eq_length_filter]
      exact h0
    rw [List.countP_eq_length_filter] at hm
    simp [create_summary_recommendation, hnil, hm]
  · intro h0 hm
    have hnil : results.filter (fun r => r.risk_level = "High") = [] := by
      rw [← List.length_eq_zero, ← List.countP_eq_length_filter]
      exact h0
    rw [List.countP_eq_length_filter] at hm
    simp [create_summary_recommendation, hnil]
    omega

/-- Witness for C4: a record set with one High and a Medium majority is
still rejected. -/
theorem C4_recommendation_precedence_witness :
    0 < ([recHigh, recMedium, recMedium] : List ClauseRecord).countP
      (fun r => r.risk_level = "High") ∧
    create_summary_recommendation [recHigh, recMedium, recMedium]
      = Recommendation.Reject :=
  ⟨by decide,
   (C4_recommendation_precedence [recHigh, recMedium, recMedium]).1 (by decide)⟩

/-- C6: the temporary-session form handler succeeds iff the supplied
email is non-empty and contains `@`; on success the session becomes a
`Temporary` guest session with the stated identity fields; on any other
input it fails and the session is unchanged. -/
theorem C6_temp_session_validation (email : String) (now : Nat)
    (s : SessionState) :
    (email ≠ "" ∧ has_at_sign email →
      temp_session_submit email now s =
        (true,
         { authenticated := true, temp_session := true,
           user_email := some email,
           user_name := some ("Guest (" ++ email ++ ")"),
           user_role := some "Guest", login_time := some now }) ∧
      session_kind (temp_session_submit email now s).2 = SessionKind.Temporary) ∧
    (email = "" ∨ ¬ has_at_sign email →
      temp_session_submit email now s = (false, s)) := by
  constructor
  · rintro ⟨h1, h2⟩
    constructor
    · simp [temp_session_submit, create_temp_session, h1, h2]
    · simp [temp_session_submit, create_temp_session, session_kind, h1, h2]
  · intro h
    rcases h with he | hnc
    · simp [temp_session_submit, he]
    · have hf : has_at_sign email = false := by
        revert hnc; cases has_at_sign email <;> simp
      simp [temp_session_submit, hf]

/-- Witness for C6 at the email `guest@example.com`. -/
theorem C6_temp_session_validation_witness :
    ("guest@example.com" ≠ "" ∧ has_at_sign "guest@example.com") ∧
    temp_session_submit "guest@example.com" 0 init_auth_session =
      (true,
       { authenticated := true, temp_session := true,
         user_email := some "guest@example.com",
         user_name := some ("Guest (" ++ "guest@example.com" ++ ")"),
         user_role := some "Guest", login_time := some 0 }) :=
  ⟨by decide,
   ((C6_temp_session_validation "guest@example.com" 0 init_auth_session).1
     (by decide)).1⟩

/-- C1 counterexample: the gate itself keeps no per-run state and never
consults the `email_sent` flag, so two successive calls of
`send_analysis_notification` on the same unreset run (eligible `Full`
session, transport enabled and working, non-empty results — nothing
changes between the calls) invoke the transport twice, not at most
once. -/
theorem C1_two_calls_send_twice :
    (send_analysis_notification nFull sFull [recLow] "contract.pdf"
        "Oct 12, 2025" true).1 = true ∧
    (send_analysis_notification nFull sFull [recLow] "contract.pdf"
          "Oct 12, 2025" true).2.length +
      (send_analysis_notification nFull sFull [recLow] "contract.pdf"
          "Oct 12, 2025" true).2.length = 2 ∧
    ¬ ((send_analysis_notification nFull sFull [recLow] "contract.pdf"
          "Oct 12, 2025" true).2.length +
        (send_analysis_notification nFull sFull [recLow] "contract.pdf"
          "Oct 12, 2025" true).2.length ≤ 1) :=
  ⟨rfl, rfl, by decide⟩

/-- Along any event trace that never fires the explicit reset, the
orchestration performs at most one transport call in total. -/
theorem trace_sends_le_one (n : NotifierState) (s : SessionState)
    (evs : List Event) :
    ∀ st : AppState, (∀ e ∈ evs, e ≠ Event.analyze_another) →
      trace_sends n s st evs ≤ 1 := by
  induction evs with
  | nil => exact fun st _ => Nat.zero_le 1
  | cons e es ih =>
      intro st hnr
      have hnr' : ∀ e ∈ es, e ≠ Event.analyze_another :=
        fun e he => hnr e (List.mem_cons_of_mem _ he)
      cases e with
      | rerender =>
          simpa [trace_sends, app_step] using ih st hnr'
      | analyze_another =>
          exact absurd rfl (hnr _ (List.mem_cons_self _ _))
      | submit res c d t =>
          by_cases hc : st.analysis_complete
          · simpa [trace_sends, app_step, hc] using ih st hnr'
          · by_cases hres : res = []
            · subst hres
              simpa [trace_sends, app_step, hc, analyze_contract]
                using ih _ hnr'
            · have hcalls := send_calls_le_one n s res c d t
              have hrest :
                  trace_sends n s
                    (app_step n s st (Event.submit res c d t)).1 es = 0 := by
                apply trace_sends_of_complete n s es _ _ hnr'
                simp [app_step, analyze_contract, hc, hres]
              simp only [trace_sends, hrest, Nat.add_zero]
              simpa [app_step, analyze_contract, hc, hres] using hcalls

/-- C1 as amended: at-most-once delivery per run holds one level up, in
the orchestration: a single gate call performs at most one transport
call, and along any event trace that never fires the explicit
`analyze_another` reset, at most one transport call happens in total —
a `submit` is only reachable while `analysis_complete` is false, a
successful analysis sets it, and re-renders of the completed run are
side-effect free. -/
theorem C1_at_most_one_send_per_run (n : NotifierState) (s : SessionState)
    (st : AppState) (evs : List Event)
    (hnr : ∀ e ∈ evs, e ≠ Event.analyze_another) :
    (∀ res c d t,
      (send_analysis_notification n s res c d t).2.length ≤ 1) ∧
    trace_sends n s st evs ≤ 1 :=
  ⟨fun res c d t => send_calls_le_one n s res c d t,
   trace_sends_le_one n s evs st hnr⟩

/-- Witness for C1 as amended: a trace that submits a run and then
re-renders and re-submits without resetting performs at most one
transport call. -/
theorem C1_at_most_one_send_per_run_witness :
    trace_sends nFull sFull init_app_state
      [Event.submit [recLow] "contract.pdf" "Oct 12, 2025" true,
       Event.rerender,
       Event.submit [recLow] "contract.pdf" "Oct 12, 2025" true] ≤ 1 :=
  (C1_at_most_one_send_per_run nFull sFull init_app_state
    [Event.submit [recLow] "contract.pdf" "Oct 12, 2025" true,
     Event.rerender,
     Event.submit [recLow] "contract.pdf" "Oct 12, 2025" true]
    (by decide)).2

/-- C5 counterexample: when the transport throws, the `email_sent` flag
is NOT set — `analyze_contract` sets it only when the gate returned
`True`.  At a concrete eligible run with a failing transport, the send
is attempted (one transport call), the gate returns `false`, the run
still completes, and `email_sent` stays `false` — contradicting the
claim that the flag is still set to true after the failed attempt. -/
theorem C5_failed_send_flag_not_set :
    (send_analysis_notification nFull sFull [recLow] "contract.pdf"
        "Oct 12, 2025" false).1 = false ∧
    (send_analysis_notification nFull sFull [recLow] "contract.pdf"
        "Oct 12, 2025" false).2.length = 1 ∧
    (app_step nFull sFull init_app_state
        (Event.submit [recLow] "contract.pdf" "Oct 12, 2025" false)).1.analysis_complete
      = true ∧
    (app_step nFull sFull init_app_state
        (Event.submit [recLow] "contract.pdf" "Oct 12, 2025" false)).1.email_sent
      = false :=
  ⟨rfl, rfl, rfl, rfl⟩

/-- C5 as amended: a transport failure is caught inside the gate (the
gate returns `false` instead of propagating), the analysis run still
completes (`analysis_complete` becomes true) and is surfaced only as a
warning; exactly the one failed transport attempt was made; but
`email_sent` keeps its previous value (it is set only after a
SUCCESSFUL send), and the failed send is nonetheless not retried on
subsequent re-renders of the same run, because a re-render performs no
transport call at all. -/
theorem C5_delivery_failure_caught (n : NotifierState) (s : SessionState)
    (res : List ClauseRecord) (c d : String) (st : AppState)
    (hc : st.analysis_complete = false) (hres : res ≠ []) :
    (send_analysis_notification n s res c d false).1 = false ∧
    (app_step n s st (Event.submit res c d false)).1.analysis_complete = true ∧
    (app_step n s st (Event.submit res c d false)).1.email_sent
      = st.email_sent ∧
    (app_step n s st (Event.submit res c d false)).2
      = (send_analysis_notification n s res c d false).2 ∧
    (app_step n s (app_step n s st (Event.submit res c d false)).1
        Event.rerender).2 = [] := by
  have hsend : (send_analysis_notification n s res c d false).1 = false := by
    unfold send_analysis_notification
    split
    · rfl
    · split
      · rfl
      · split
        · rfl
        · simp
  refine ⟨hsend, ?_, ?_, ?_, rfl⟩
  · simp [app_step, analyze_contract, hc, hres]
  · simp [app_step, analyze_contract, hc, hres, hsend]
  · simp [app_step, analyze_contract, hc, hres]

/-- Witness for C5 as amended, at a concrete eligible run with a
failing transport. -/
theorem C5_delivery_failure_caught_witness :
    (send_analysis_notification nFull sFull [recLow] "contract.pdf"
        "Oct 12, 2025" false).1 = false ∧
    (app_step nFull sFull init_app_state
        (Event.submit [recLow] "contract.pdf" "Oct 12, 2025" false)).1.analysis_complete
      = true ∧
    (app_step nFull sFull init_app_state
        (Event.submit [recLow] "contract.pdf" "Oct 12, 2025" false)).1.email_sent
      = init_app_state.email_sent ∧
    (app_step nFull sFull init_app_state
        (Event.submit [recLow] "contract.pdf" "Oct 12, 2025" false)).2
      = (send_analysis_notification nFull sFull [recLow] "contract.pdf"
          "Oct 12, 2025" false).2 ∧
    (app_step nFull sFull
        (app_step nFull sFull init_app_state
          (Event.submit [recLow] "contract.pdf" "Oct 12, 2025" false)).1
        Event.rerender).2 = [] :=
  C5_delivery_failure_caught nFull sFull [recLow] "contract.pdf"
    "Oct 12, 2025" init_app_state rfl (by decide)

/-- C7 counterexample: the code removes EVERY `%` character
(`replace('%','')`) rather than stripping only a trailing one, so a
record whose `risk_percent` is `"4%2"` parses as `42` and enters the
average, while the claim's trailing-`%` parse fails on it and would
exclude it: on the one-record set the code's average is `42`, the
claim's is `0`. -/
theorem C7_non_trailing_percent_differs :
    dashboard_avg_risk [recOddPercent] = 42 ∧
    spec_avg_risk [recOddPercent] = 0 ∧
    parse_risk_percent "4%2" = some 42 ∧
    spec_parse_risk_percent "4%2" = none ∧
    (42 : ℚ) ≠ 0 := by
  refine ⟨?_, rfl, ?_, rfl, by norm_num⟩
  · have h : dashboard_avg_risk [recOddPercent]
        = (1 * ((42 : ℕ) : ℚ) + 0) / ((1 : ℕ) : ℚ) := rfl
    rw [h]; norm_num
  · have h : parse_risk_percent "4%2" = some (1 * ((42 : ℕ) : ℚ)) := rfl
    rw [h]; norm_num

/-- C7 as amended: the parse removes every `%` character and strips
surrounding whitespace before converting (not only a trailing `%`);
with that parse, records that fail to parse are excluded from both the
numerator and the denominator, the result is the mean of the parsed
values (0 if none parse), and on the claim's example `"42%"` and
`" 7 % "` contribute 42 and 7 while `"abc"` is excluded entirely. -/
theorem C7_average_excludes_unparsed (results : List ClauseRecord)
    (r : ClauseRecord) (h : parse_risk_percent r.risk_percent = none) :
    dashboard_avg_risk (results ++ [r]) = dashboard_avg_risk results ∧
    dashboard_avg_risk [] = 0 ∧
    parse_risk_percent "42%" = some 42 ∧
    parse_risk_percent " 7 % " = some 7 ∧
    parse_risk_percent "abc" = none ∧
    dashboard_avg_risk [rec42, rec7sp, recAbc] = 49 / 2 := by
  refine ⟨?_, rfl, ?_, ?_, rfl, ?_⟩
  · have key : (results ++ [r]).filterMap
        (fun x => parse_risk_percent x.risk_percent)
        = results.filterMap (fun x => parse_risk_percent x.risk_percent) := by
      simp [List.filterMap_append, h]
    unfold dashboard_avg_risk
    rw [key]
  · have h42 : parse_risk_percent "42%" = some (1 * ((42 : ℕ) : ℚ)) := rfl
    rw [h42]; norm_num
  · have h7 : parse_risk_percent " 7 % " = some (1 * ((7 : ℕ) : ℚ)) := rfl
    rw [h7]; norm_num
  · have havg : dashboard_avg_risk [rec42, rec7sp, recAbc]
        = (1 * ((42 : ℕ) : ℚ) + (1 * ((7 : ℕ) : ℚ) + 0)) / ((2 : ℕ) : ℚ) := rfl
    rw [havg]; norm_num

/-- Witness for C7 as amended: appending the unparseable `"abc"` record
to a singleton run leaves the average unchanged. -/
theorem C7_average_excludes_unparsed_witness :
    parse_risk_percent recAbc.risk_percent = none ∧
    dashboard_avg_risk ([rec42] ++ [recAbc]) = dashboard_avg_risk [rec42] :=
  ⟨rfl, (C7_average_excludes_unparsed [rec42] recAbc rfl).1⟩

/-- C8: report composition is a deterministic function of the analysis
results (the metrics source), the contract name, the submitting
identity's display name and the timestamp: the output is byte-identical
across any two calls whose relevant inputs agree, even if unrelated
session fields (email, role, login time) differ.  Identical inputs are
the special case `s1 = s2`. -/
theorem C8_report_deterministic (results : List ClauseRecord)
    (contract_name dateStr : String) (s1 s2 : SessionState)
    (hname : s1.user_name = s2.user_name)
    (hcheck : check_user_session s1 = check_user_session s2) :
    generate_analysis_summary results contract_name s1 dateStr
      = generate_analysis_summary results contract_name s2 dateStr := by
  unfold generate_analysis_summary
  rw [hcheck]
  simp only [get_user_info, hname]

/-- Witness for C8: two sessions with the same display name but
different user emails produce byte-identical reports. -/
theorem C8_report_deterministic_witness :
    generate_analysis_summary [recLow] "contract.pdf" sFull "Oct 12, 2025"
      = generate_analysis_summary [recLow] "contract.pdf"
          { sFull with user_email := some "other@company.com",
                       login_time := some 99 } "Oct 12, 2025" :=
  C8_report_deterministic [recLow] "contract.pdf" "Oct 12, 2025" sFull
    { sFull with user_email := some "other@company.com",
                 login_time := some 99 } rfl rfl

/-- C9 counterexample: an override consisting only of a comma is
non-empty as a string, so the fallback is not used, yet every split
entry strips to blank and is dropped — the resolved recipient list is
empty, contradicting both "otherwise equals exactly the fallback list"
and "the resolved list is never empty". -/
theorem C9_blank_override_yields_empty :
    get_notification_emails "," = [] ∧
    get_notification_emails ","
      ≠ ["admin@company.com", "compliance@company.com", "legal@company.com"] :=
  ⟨rfl, by decide⟩

/-- C9 as amended: the fallback list is used exactly when the override
string is empty/absent; for a non-empty override the resolved list is
its comma-separated entries, trimmed, with blank entries dropped — and
that list is empty (not the fallback) precisely when every entry of the
non-empty override is blank.  Every resolved entry is a non-blank
string. -/
theorem C9_recipient_resolution (env : String) :
    (env = "" →
      get_notification_emails env
        = ["admin@company.com", "compliance@company.com", "legal@company.com"]) ∧
    (env ≠ "" →
      get_notification_emails env
        = ((pySplitComma env).map pyStrip).filter (fun e => e ≠ "")) ∧
    (∀ e ∈ get_notification_emails env, e ≠ "") ∧
    (get_notification_emails env = [] ↔
      env ≠ "" ∧ ∀ p ∈ pySplitComma env, pyStrip p = "") := by
  by_cases he : env = ""
  · subst he
    refine ⟨fun _ => rfl, fun hne => absurd rfl hne, ?_, ?_⟩
    · intro e hmem
      simp only [get_notification_emails] at hmem
      fin_cases hmem <;> decide
    · simp [get_notification_emails]
  · refine ⟨fun hcontra => absurd hcontra he, fun _ => ?_, ?_, ?_⟩
    · rw [get_notification_emails, if_pos he]
    · intro e hmem
      rw [get_notification_emails, if_pos he] at hmem
      simpa using (List.mem_filter.mp hmem).2
    · rw [get_notification_emails, if_pos he, List.filter_eq_nil_iff]
      constructor
      · intro hall
        refine ⟨he, fun p hp => ?_⟩
        have := hall (pyStrip p) (List.mem_map_of_mem _ hp)
        simpa using this
      · rintro ⟨-, hall⟩ a ha
        obtain ⟨p, hp, rfl⟩ := List.mem_map.mp ha
        simpa using hall p hp

/-- Witness for C9 as amended, at a concrete non-empty override with a
trailing comma: the resolved list keeps the trimmed entry and drops the
blank one, and its entry is non-blank. -/
theorem C9_recipient_resolution_witness :
    get_notification_emails " a@b ,"
      = ((pySplitComma " a@b ,").map pyStrip).filter (fun e => e ≠ "") ∧
    ("a@b" : String) ≠ "" :=
  ⟨(C9_recipient_resolution " a@b ,").2.1 (by decide),
   (C9_recipient_resolution " a@b ,").2.2.1 "a@b" (by decide)⟩
